import Mathlib

/-!
Shallow embedding of the oasis-core runtime host bridge
(runtime host handler, runtime host notifier, RuntimeHostNode)
together with theorems checking the specification's claims.

The embedding mirrors the Go source of the `registry` host package:
pure request handling is translated to Lean functions over tagged
request/response envelopes, collaborator calls are oracle fields of an
environment record, stateful notifier/node behaviour is explicit state
passing, and the Go channel-close panic is modelled by an `Option`
result (`none` = panic).
-/

set_option autoImplicit false

namespace Oasis

/-- Raw byte payloads are modelled as lists of naturals. -/
abbrev Bytes := List Nat

/-- Errors returned by the bridge.  `methodNotSupported` and
`endpointNotSupported` model the two sentinel errors of the source;
`other` models an arbitrary downstream collaborator error; `wrap`
models `fmt.Errorf("...: %w", err)`. -/
inductive Err where
  | methodNotSupported : Err
  | endpointNotSupported : Err
  | other : String → Err
  | wrap : String → Err → Err
deriving DecidableEq, Repr

/-- `storage.ProofResponse` payload (opaque for the claims). -/
structure StorageProofResponse where
  Proof : Nat
deriving DecidableEq, Repr

/-- `syncer.ReadSyncer`: the three sync methods, as oracle functions. -/
structure ReadSyncer where
  syncGet : Bytes → Except Err StorageProofResponse
  syncGetPrefixes : Bytes → Except Err StorageProofResponse
  syncIterate : Bytes → Except Err StorageProofResponse

/-- `protocol.HostRPCCallRequest`. -/
structure HostRPCCallRequest where
  Endpoint : String
  Request : Bytes
  Kind : Nat
  PeerFeedback : Nat
deriving DecidableEq, Repr

/-- `protocol.HostRPCCallResponse`. -/
structure HostRPCCallResponse where
  Response : Bytes
deriving DecidableEq, Repr

/-- Storage endpoint tag (`protocol.HostStorageEndpoint*`). -/
inductive HostStorageEndpoint where
  | runtime
  | consensus
  | otherEp (n : Nat)
deriving DecidableEq, Repr

/-- `protocol.HostStorageSyncRequest`: one of the three sync sub-requests. -/
structure HostStorageSyncRequest where
  Endpoint : HostStorageEndpoint
  SyncGet : Option Bytes := none
  SyncGetPrefixes : Option Bytes := none
  SyncIterate : Option Bytes := none
deriving DecidableEq, Repr

/-- `protocol.HostStorageSyncResponse`. -/
structure HostStorageSyncResponse where
  ProofResponse : StorageProofResponse
deriving DecidableEq, Repr

/-- `protocol.HostLocalStorageGetRequest`. -/
structure HostLocalStorageGetRequest where
  Key : Bytes
deriving DecidableEq, Repr

/-- `protocol.HostLocalStorageGetResponse`. -/
structure HostLocalStorageGetResponse where
  Value : Bytes
deriving DecidableEq, Repr

/-- `protocol.HostLocalStorageSetRequest`. -/
structure HostLocalStorageSetRequest where
  Key : Bytes
  Value : Bytes
deriving DecidableEq, Repr

/-- `protocol.Empty` (the local-storage-set response payload). -/
structure ProtoEmpty where
deriving DecidableEq, Repr

/-- `protocol.HostFetchConsensusBlockRequest`. -/
structure HostFetchConsensusBlockRequest where
  Height : Nat
deriving DecidableEq, Repr

/-- `protocol.HostFetchConsensusBlockResponse` (block is opaque). -/
structure HostFetchConsensusBlockResponse where
  Block : Nat
deriving DecidableEq, Repr

/-- `protocol.EventKind`: the four known kinds plus unknown values. -/
inductive EventKind where
  | staking
  | registry
  | rootHash
  | governance
  | otherKind (n : Nat)
deriving DecidableEq, Repr

/-- `consensusResults.Event`: a tagged union with one field per source
backend; individual backend events are opaque naturals. -/
structure ConsensusEvent where
  Staking : Option Nat := none
  Registry : Option Nat := none
  RootHash : Option Nat := none
  Governance : Option Nat := none
deriving DecidableEq, Repr

/-- `protocol.HostFetchConsensusEventsRequest`. -/
structure HostFetchConsensusEventsRequest where
  Height : Nat
  Kind : EventKind
deriving DecidableEq, Repr

/-- `protocol.HostFetchConsensusEventsResponse`. -/
structure HostFetchConsensusEventsResponse where
  Events : List ConsensusEvent
deriving DecidableEq, Repr

/-- `protocol.HostFetchGenesisHeightRequest` (empty payload). -/
structure HostFetchGenesisHeightRequest where
deriving DecidableEq, Repr

/-- `protocol.HostFetchGenesisHeightResponse`. -/
structure HostFetchGenesisHeightResponse where
  Height : Nat
deriving DecidableEq, Repr

/-- `protocol.HostFetchTxBatchRequest`. -/
structure HostFetchTxBatchRequest where
  Offset : Nat
  Limit : Nat
deriving DecidableEq, Repr

/-- `protocol.HostFetchTxBatchResponse`. -/
structure HostFetchTxBatchResponse where
  Batch : List Nat
deriving DecidableEq, Repr

/-- `protocol.HostProveFreshnessRequest`. -/
structure HostProveFreshnessRequest where
  Blob : Bytes
deriving DecidableEq, Repr

/-- `protocol.HostProveFreshnessResponse`. -/
structure HostProveFreshnessResponse where
  SignedTx : Nat
  Proof : Nat
deriving DecidableEq, Repr

/-- `protocol.HostIdentityRequest` (empty payload). -/
structure HostIdentityRequest where
deriving DecidableEq, Repr

/-- `protocol.HostIdentityResponse`. -/
structure HostIdentityResponse where
  NodeID : Nat
deriving DecidableEq, Repr

/-- `protocol.Body`, restricted to the host request/response variants
the handler inspects.  Every field is optional; the Go zero value of a
pointer field is `none`. -/
structure Body where
  HostRPCCallRequest : Option HostRPCCallRequest := none
  HostStorageSyncRequest : Option HostStorageSyncRequest := none
  HostLocalStorageGetRequest : Option HostLocalStorageGetRequest := none
  HostLocalStorageSetRequest : Option HostLocalStorageSetRequest := none
  HostFetchConsensusBlockRequest : Option HostFetchConsensusBlockRequest := none
  HostFetchConsensusEventsRequest : Option HostFetchConsensusEventsRequest := none
  HostFetchGenesisHeightRequest : Option HostFetchGenesisHeightRequest := none
  HostFetchTxBatchRequest : Option HostFetchTxBatchRequest := none
  HostProveFreshnessRequest : Option HostProveFreshnessRequest := none
  HostIdentityRequest : Option HostIdentityRequest := none
  HostRPCCallResponse : Option HostRPCCallResponse := none
  HostStorageSyncResponse : Option HostStorageSyncResponse := none
  HostLocalStorageGetResponse : Option HostLocalStorageGetResponse := none
  HostLocalStorageSetResponse : Option ProtoEmpty := none
  HostFetchConsensusBlockResponse : Option HostFetchConsensusBlockResponse := none
  HostFetchConsensusEventsResponse : Option HostFetchConsensusEventsResponse := none
  HostFetchGenesisHeightResponse : Option HostFetchGenesisHeightResponse := none
  HostFetchTxBatchResponse : Option HostFetchTxBatchResponse := none
  HostProveFreshnessResponse : Option HostProveFreshnessResponse := none
  HostIdentityResponse : Option HostIdentityResponse := none
deriving DecidableEq, Repr

/-- The key manager client (`runtimeKeymanager.Client`), reduced to the
one method the handler uses. -/
structure KmClient where
  callEnclave : Bytes → Nat → Nat → Except Err Bytes

/-- A transaction as held by the pool (`txpool.TxQueueMeta`); the raw
bytes are opaque. -/
structure TxQueueMeta where
  raw : Nat
deriving DecidableEq, Repr

/-- `TxQueueMeta.Raw()` accessor. -/
def TxQueueMeta.Raw (t : TxQueueMeta) : Nat := t.raw

/-- The transaction pool, as an ordered list of transactions. -/
structure TxPool where
  txs : List TxQueueMeta

/-- Modelled from the spec: `txpool.TransactionPool.GetSchedulingExtra`
is not under `src/`; the spec describes it as a windowed pull from the
pool by offset and limit, returning transactions in pool order. -/
def TxPool.GetSchedulingExtra (p : TxPool) (offset limit : Nat) : List TxQueueMeta :=
  (p.txs.drop offset).take limit

/-- The node identity: the public key of the node signer. -/
structure Identity where
  nodeSignerPublic : Nat
deriving DecidableEq, Repr

/-- `consensus.LightClient`, reduced to `GetLightBlock`. -/
structure LightClient where
  getLightBlock : Nat → Except Err Nat

/-- The consensus genesis document (only the height is used). -/
structure GenesisDocument where
  Height : Nat
deriving DecidableEq, Repr

/-- A proof-of-freshness transaction (`registry.NewProveFreshnessTx`). -/
structure FreshnessTx where
  Nonce : Nat
  Blob : Bytes
deriving DecidableEq, Repr

/-- `registry.NewProveFreshnessTx(0, nil, blob)`. -/
def newProveFreshnessTx (nonce : Nat) (blob : Bytes) : FreshnessTx :=
  { Nonce := nonce, Blob := blob }

/-- `registry.VersionInfo`; only the `TEE` constraint bytes are used,
modelled as an opaque natural fed to the CBOR-decoding oracle. -/
structure VersionInfo where
  TEE : Nat
deriving DecidableEq, Repr

/-- `node.SGXConstraints`; only the quote policy is used. -/
structure SGXConstraints where
  Policy : Nat
deriving DecidableEq, Repr

/-- `node.TEEHardware` values. -/
inductive TEEHardwareKind where
  | invalid
  | intelSGX
  | otherHw (n : Nat)
deriving DecidableEq, Repr

/-- The key manager's registry runtime descriptor, as used by the
policy watch loop. -/
structure RuntimeDescriptor where
  TEEHardware : TEEHardwareKind
  /-- Modelled from the spec: `registry.Runtime.ActiveDeployment` is
  not under `src/`; the spec speaks of "the descriptor's active
  deployment for that epoch", modelled as a total function of the
  epoch. -/
  activeDeployment : Nat → VersionInfo

/-- The consensus backend, reduced to the operations the handler and
the notifier use, each an oracle. -/
structure ConsensusBackend where
  state : ReadSyncer
  stakingGetEvents : Nat → Except Err (List Nat)
  registryGetEvents : Nat → Except Err (List Nat)
  rootHashGetEvents : Nat → Except Err (List Nat)
  governanceGetEvents : Nat → Except Err (List Nat)
  getGenesisDocument : Except Err GenesisDocument
  signAndSubmitTxWithProof : Nat → FreshnessTx → Except Err (Nat × Nat)
  registryGetRuntime : Nat → Except Err RuntimeDescriptor

/-- The runtime's private local key/value store. -/
structure LocalStorage where
  get : Bytes → Except Err Bytes
  set : Bytes → Bytes → Option Err

/-- The `Runtime` collaborator as seen by the handler: its storage
read-syncer (absent for unmanaged runtimes) and its local storage. -/
structure RuntimeIface where
  storage : Option ReadSyncer
  localStorage : LocalStorage

/-- `RuntimeHostHandlerEnvironment`: the four environment getters. -/
structure HandlerEnv where
  getKeyManagerClient : Except Err KmClient
  getTxPool : Except Err TxPool
  getNodeIdentity : Except Err Identity
  getLightClient : Except Err LightClient

/-- `runtimeHostHandler`: environment, runtime and consensus backend. -/
structure Handler where
  env : HandlerEnv
  runtime : RuntimeIface
  consensus : ConsensusBackend

/-- `runtimeKeymanager.EnclaveRPCEndpoint`. -/
def enclaveRPCEndpoint : String := "key-manager"

/-- `runtimeHostHandler.handleHostRPCCall`.  Each Go
`return nil, err` is `(none, some err)`; each `return &rsp, nil` is
`(some rsp, none)`. -/
def handleHostRPCCall (h : Handler) (rq : HostRPCCallRequest) :
    Option HostRPCCallResponse × Option Err :=
  if rq.Endpoint = enclaveRPCEndpoint then
    match h.env.getKeyManagerClient with
    | .error e => (none, some e)
    | .ok kmCli =>
      match kmCli.callEnclave rq.Request rq.Kind rq.PeerFeedback with
      | .error e => (none, some e)
      | .ok res => (some { Response := res }, none)
  else
    (none, some Err.endpointNotSupported)

/-- `runtimeHostHandler.handleHostStorageSync`. -/
def handleHostStorageSync (h : Handler) (rq : HostStorageSyncRequest) :
    Option HostStorageSyncResponse × Option Err :=
  let rsResult : Except Err ReadSyncer :=
    match rq.Endpoint with
    | .runtime =>
      match h.runtime.storage with
      | none => .error Err.endpointNotSupported
      | some rs => .ok rs
    | .consensus => .ok h.consensus.state
    | .otherEp _ => .error Err.endpointNotSupported
  match rsResult with
  | .error e => (none, some e)
  | .ok rs =>
    match rq.SyncGet, rq.SyncGetPrefixes, rq.SyncIterate with
    | some q, _, _ =>
      match rs.syncGet q with
      | .error e => (none, some e)
      | .ok rsp => (some { ProofResponse := rsp }, none)
    | none, some q, _ =>
      match rs.syncGetPrefixes q with
      | .error e => (none, some e)
      | .ok rsp => (some { ProofResponse := rsp }, none)
    | none, none, some q =>
      match rs.syncIterate q with
      | .error e => (none, some e)
      | .ok rsp => (some { ProofResponse := rsp }, none)
    | none, none, none => (none, some Err.methodNotSupported)

/-- `runtimeHostHandler.handleHostLocalStorageGet`. -/
def handleHostLocalStorageGet (h : Handler) (rq : HostLocalStorageGetRequest) :
    Option HostLocalStorageGetResponse × Option Err :=
  match h.runtime.localStorage.get rq.Key with
  | .error e => (none, some e)
  | .ok value => (some { Value := value }, none)

/-- `runtimeHostHandler.handleHostLocalStorageSet`. -/
def handleHostLocalStorageSet (h : Handler) (rq : HostLocalStorageSetRequest) :
    Option ProtoEmpty × Option Err :=
  match h.runtime.localStorage.set rq.Key rq.Value with
  | some e => (none, some e)
  | none => (some {}, none)

/-- `runtimeHostHandler.handleHostFetchConsensusBlock`. -/
def handleHostFetchConsensusBlock (h : Handler) (rq : HostFetchConsensusBlockRequest) :
    Option HostFetchConsensusBlockResponse × Option Err :=
  match h.env.getLightClient with
  | .error e => (none, some e)
  | .ok lc =>
    match lc.getLightBlock rq.Height with
    | .error e => (none, some (Err.wrap "light block fetch failure" e))
    | .ok blk => (some { Block := blk }, none)

/-- `runtimeHostHandler.handleHostFetchConsensusEvents`. -/
def handleHostFetchConsensusEvents (h : Handler) (rq : HostFetchConsensusEventsRequest) :
    Option HostFetchConsensusEventsResponse × Option Err :=
  match rq.Kind with
  | .staking =>
    match h.consensus.stakingGetEvents rq.Height with
    | .error e => (none, some e)
    | .ok sevs =>
      (some { Events := sevs.map fun sev => { Staking := some sev } }, none)
  | .registry =>
    match h.consensus.registryGetEvents rq.Height with
    | .error e => (none, some e)
    | .ok revs =>
      (some { Events := revs.map fun rev => { Registry := some rev } }, none)
  | .rootHash =>
    match h.consensus.rootHashGetEvents rq.Height with
    | .error e => (none, some e)
    | .ok revs =>
      (some { Events := revs.map fun rev => { RootHash := some rev } }, none)
  | .governance =>
    match h.consensus.governanceGetEvents rq.Height with
    | .error e => (none, some e)
    | .ok gevs =>
      (some { Events := gevs.map fun gev => { Governance := some gev } }, none)
  | .otherKind _ => (none, some Err.methodNotSupported)

/-- `runtimeHostHandler.handleHostFetchGenesisHeight`. -/
def handleHostFetchGenesisHeight (h : Handler) (_rq : HostFetchGenesisHeightRequest) :
    Option HostFetchGenesisHeightResponse × Option Err :=
  match h.consensus.getGenesisDocument with
  | .error e => (none, some e)
  | .ok doc => (some { Height := doc.Height }, none)

/-- `runtimeHostHandler.handleHostFetchTxBatch`. -/
def handleHostFetchTxBatch (h : Handler) (rq : HostFetchTxBatchRequest) :
    Option HostFetchTxBatchResponse × Option Err :=
  match h.env.getTxPool with
  | .error e => (none, some e)
  | .ok txPool =>
    let batch := txPool.GetSchedulingExtra rq.Offset rq.Limit
    (some { Batch := batch.map TxQueueMeta.Raw }, none)

/-- `runtimeHostHandler.handleHostProveFreshness`. -/
def handleHostProveFreshness (h : Handler) (rq : HostProveFreshnessRequest) :
    Option HostProveFreshnessResponse × Option Err :=
  match h.env.getNodeIdentity with
  | .error e => (none, some e)
  | .ok identity =>
    match h.consensus.signAndSubmitTxWithProof identity.nodeSignerPublic
        (newProveFreshnessTx 0 rq.Blob) with
    | .error e => (none, some e)
    | .ok (sigTx, proof) => (some { SignedTx := sigTx, Proof := proof }, none)

/-- `runtimeHostHandler.handleHostIdentity`. -/
def handleHostIdentity (h : Handler) (_rq : HostIdentityRequest) :
    Option HostIdentityResponse × Option Err :=
  match h.env.getNodeIdentity with
  | .error e => (none, some e)
  | .ok identity => (some { NodeID := identity.nodeSignerPublic }, none)

/-- The body of the Go `switch` in `runtimeHostHandler.Handle`: the
request variants are tested in source order and the first populated
one is dispatched; the zero `protocol.Body` with a single assigned
response field is returned together with the handler's error. -/
def dispatch (h : Handler) (rq : Body) : Body × Option Err :=
  match rq.HostRPCCallRequest, rq.HostStorageSyncRequest,
      rq.HostLocalStorageGetRequest, rq.HostLocalStorageSetRequest,
      rq.HostFetchConsensusBlockRequest, rq.HostFetchConsensusEventsRequest,
      rq.HostFetchGenesisHeightRequest, rq.HostFetchTxBatchRequest,
      rq.HostProveFreshnessRequest, rq.HostIdentityRequest with
  | some r, _, _, _, _, _, _, _, _, _ =>
    ({ HostRPCCallResponse := (handleHostRPCCall h r).1 }, (handleHostRPCCall h r).2)
  | none, some r, _, _, _, _, _, _, _, _ =>
    ({ HostStorageSyncResponse := (handleHostStorageSync h r).1 }, (handleHostStorageSync h r).2)
  | none, none, some r, _, _, _, _, _, _, _ =>
    ({ HostLocalStorageGetResponse := (handleHostLocalStorageGet h r).1 }, (handleHostLocalStorageGet h r).2)
  | none, none, none, some r, _, _, _, _, _, _ =>
    ({ HostLocalStorageSetResponse := (handleHostLocalStorageSet h r).1 }, (handleHostLocalStorageSet h r).2)
  | none, none, none, none, some r, _, _, _, _, _ =>
    ({ HostFetchConsensusBlockResponse := (handleHostFetchConsensusBlock h r).1 }, (handleHostFetchConsensusBlock h r).2)
  | none, none, none, none, none, some r, _, _, _, _ =>
    ({ HostFetchConsensusEventsResponse := (handleHostFetchConsensusEvents h r).1 }, (handleHostFetchConsensusEvents h r).2)
  | none, none, none, none, none, none, some r, _, _, _ =>
    ({ HostFetchGenesisHeightResponse := (handleHostFetchGenesisHeight h r).1 }, (handleHostFetchGenesisHeight h r).2)
  | none, none, none, none, none, none, none, some r, _, _ =>
    ({ HostFetchTxBatchResponse := (handleHostFetchTxBatch h r).1 }, (handleHostFetchTxBatch h r).2)
  | none, none, none, none, none, none, none, none, some r, _ =>
    ({ HostProveFreshnessResponse := (handleHostProveFreshness h r).1 }, (handleHostProveFreshness h r).2)
  | none, none, none, none, none, none, none, none, none, some r =>
    ({ HostIdentityResponse := (handleHostIdentity h r).1 }, (handleHostIdentity h r).2)
  | none, none, none, none, none, none, none, none, none, none =>
    ({}, some Err.methodNotSupported)

/-- `runtimeHostHandler.Handle`: dispatch, then the common epilogue
`if err != nil { return nil, err }; return &rsp, nil`. -/
def Handle (h : Handler) (rq : Body) : Option Body × Option Err :=
  match (dispatch h rq).2 with
  | some e => (none, some e)
  | none => (some (dispatch h rq).1, none)

/-- The number of populated request variants of an envelope. -/
def countReq (rq : Body) : Nat :=
  rq.HostRPCCallRequest.isSome.toNat +
  rq.HostStorageSyncRequest.isSome.toNat +
  rq.HostLocalStorageGetRequest.isSome.toNat +
  rq.HostLocalStorageSetRequest.isSome.toNat +
  rq.HostFetchConsensusBlockRequest.isSome.toNat +
  rq.HostFetchConsensusEventsRequest.isSome.toNat +
  rq.HostFetchGenesisHeightRequest.isSome.toNat +
  rq.HostFetchTxBatchRequest.isSome.toNat +
  rq.HostProveFreshnessRequest.isSome.toNat +
  rq.HostIdentityRequest.isSome.toNat

/-- The number of populated response variants of an envelope. -/
def countResp (rsp : Body) : Nat :=
  rsp.HostRPCCallResponse.isSome.toNat +
  rsp.HostStorageSyncResponse.isSome.toNat +
  rsp.HostLocalStorageGetResponse.isSome.toNat +
  rsp.HostLocalStorageSetResponse.isSome.toNat +
  rsp.HostFetchConsensusBlockResponse.isSome.toNat +
  rsp.HostFetchConsensusEventsResponse.isSome.toNat +
  rsp.HostFetchGenesisHeightResponse.isSome.toNat +
  rsp.HostFetchTxBatchResponse.isSome.toNat +
  rsp.HostProveFreshnessResponse.isSome.toNat +
  rsp.HostIdentityResponse.isSome.toNat

/-- Every populated response variant corresponds to a populated request
variant of the same kind. -/
def respMatches (rq rsp : Body) : Prop :=
  (rsp.HostRPCCallResponse.isSome = true → rq.HostRPCCallRequest.isSome = true) ∧
  (rsp.HostStorageSyncResponse.isSome = true → rq.HostStorageSyncRequest.isSome = true) ∧
  (rsp.HostLocalStorageGetResponse.isSome = true → rq.HostLocalStorageGetRequest.isSome = true) ∧
  (rsp.HostLocalStorageSetResponse.isSome = true → rq.HostLocalStorageSetRequest.isSome = true) ∧
  (rsp.HostFetchConsensusBlockResponse.isSome = true → rq.HostFetchConsensusBlockRequest.isSome = true) ∧
  (rsp.HostFetchConsensusEventsResponse.isSome = true → rq.HostFetchConsensusEventsRequest.isSome = true) ∧
  (rsp.HostFetchGenesisHeightResponse.isSome = true → rq.HostFetchGenesisHeightRequest.isSome = true) ∧
  (rsp.HostFetchTxBatchResponse.isSome = true → rq.HostFetchTxBatchRequest.isSome = true) ∧
  (rsp.HostProveFreshnessResponse.isSome = true → rq.HostProveFreshnessRequest.isSome = true) ∧
  (rsp.HostIdentityResponse.isSome = true → rq.HostIdentityRequest.isSome = true)

/-- The request variants of an envelope, as a sum type. -/
inductive ReqVariant where
  | rpc (r : HostRPCCallRequest)
  | storageSync (r : HostStorageSyncRequest)
  | localGet (r : HostLocalStorageGetRequest)
  | localSet (r : HostLocalStorageSetRequest)
  | consensusBlock (r : HostFetchConsensusBlockRequest)
  | consensusEvents (r : HostFetchConsensusEventsRequest)
  | genesisHeight (r : HostFetchGenesisHeightRequest)
  | txBatch (r : HostFetchTxBatchRequest)
  | proveFreshness (r : HostProveFreshnessRequest)
  | identity (r : HostIdentityRequest)
deriving DecidableEq, Repr

/-- The first populated request variant of an envelope in the fixed
order of the dispatcher's `switch`. -/
def firstVariant (rq : Body) : Option ReqVariant :=
  match rq.HostRPCCallRequest, rq.HostStorageSyncRequest,
      rq.HostLocalStorageGetRequest, rq.HostLocalStorageSetRequest,
      rq.HostFetchConsensusBlockRequest, rq.HostFetchConsensusEventsRequest,
      rq.HostFetchGenesisHeightRequest, rq.HostFetchTxBatchRequest,
      rq.HostProveFreshnessRequest, rq.HostIdentityRequest with
  | some r, _, _, _, _, _, _, _, _, _ => some (.rpc r)
  | none, some r, _, _, _, _, _, _, _, _ => some (.storageSync r)
  | none, none, some r, _, _, _, _, _, _, _ => some (.localGet r)
  | none, none, none, some r, _, _, _, _, _, _ => some (.localSet r)
  | none, none, none, none, some r, _, _, _, _, _ => some (.consensusBlock r)
  | none, none, none, none, none, some r, _, _, _, _ => some (.consensusEvents r)
  | none, none, none, none, none, none, some r, _, _, _ => some (.genesisHeight r)
  | none, none, none, none, none, none, none, some r, _, _ => some (.txBatch r)
  | none, none, none, none, none, none, none, none, some r, _ => some (.proveFreshness r)
  | none, none, none, none, none, none, none, none, none, some r => some (.identity r)
  | none, none, none, none, none, none, none, none, none, none => none

/-- The result of handling a single request variant (or none: the
default `switch` case), before the common epilogue. -/
def variantResult (h : Handler) : Option ReqVariant → Body × Option Err
  | none => ({}, some Err.methodNotSupported)
  | some (.rpc r) =>
    ({ HostRPCCallResponse := (handleHostRPCCall h r).1 }, (handleHostRPCCall h r).2)
  | some (.storageSync r) =>
    ({ HostStorageSyncResponse := (handleHostStorageSync h r).1 }, (handleHostStorageSync h r).2)
  | some (.localGet r) =>
    ({ HostLocalStorageGetResponse := (handleHostLocalStorageGet h r).1 }, (handleHostLocalStorageGet h r).2)
  | some (.localSet r) =>
    ({ HostLocalStorageSetResponse := (handleHostLocalStorageSet h r).1 }, (handleHostLocalStorageSet h r).2)
  | some (.consensusBlock r) =>
    ({ HostFetchConsensusBlockResponse := (handleHostFetchConsensusBlock h r).1 }, (handleHostFetchConsensusBlock h r).2)
  | some (.consensusEvents r) =>
    ({ HostFetchConsensusEventsResponse := (handleHostFetchConsensusEvents h r).1 }, (handleHostFetchConsensusEvents h r).2)
  | some (.genesisHeight r) =>
    ({ HostFetchGenesisHeightResponse := (handleHostFetchGenesisHeight h r).1 }, (handleHostFetchGenesisHeight h r).2)
  | some (.txBatch r) =>
    ({ HostFetchTxBatchResponse := (handleHostFetchTxBatch h r).1 }, (handleHostFetchTxBatch h r).2)
  | some (.proveFreshness r) =>
    ({ HostProveFreshnessResponse := (handleHostProveFreshness h r).1 }, (handleHostProveFreshness h r).2)
  | some (.identity r) =>
    ({ HostIdentityResponse := (handleHostIdentity h r).1 }, (handleHostIdentity h r).2)

/-- Handling a single request variant (or none), with the same
epilogue as `Handle`. -/
def handleVariant (h : Handler) (v : Option ReqVariant) : Option Body × Option Err :=
  match (variantResult h v).2 with
  | some e => (none, some e)
  | none => (some (variantResult h v).1, none)

/-- Go `close(ch)` on a channel whose closed-flag is `closed`:
closing an already-closed channel panics (`none`); otherwise the
channel is now closed. -/
def closeChan (closed : Bool) : Option Bool :=
  if closed then none else some true

/-- The mutable state of `runtimeHostNotifier` relevant to lifecycle:
the `started` flag, whether `stopCh` has been closed, and how many
times each watch goroutine has been launched. -/
structure NotifierState where
  started : Bool := false
  stopChClosed : Bool := false
  policyLoops : Nat := 0
  blockLoops : Nat := 0
deriving DecidableEq, Repr

/-- `runtimeHostNotifier.Start`: under the lock, a second call returns
immediately; the first call sets `started` and launches the two watch
goroutines.  The returned error is always `nil`. -/
def notifierStart (n : NotifierState) : NotifierState × Option Err :=
  if n.started then (n, none)
  else
    ({ n with
        started := true
        policyLoops := n.policyLoops + 1
        blockLoops := n.blockLoops + 1 }, none)

/-- `runtimeHostNotifier.Stop`: unconditionally `close(n.stopCh)`;
`none` models the Go panic on closing an already-closed channel. -/
def notifierStop (n : NotifierState) : Option NotifierState :=
  match closeChan n.stopChClosed with
  | none => none
  | some _ => some { n with stopChClosed := true }

/-- The mutable fields of `RuntimeHostNode`: the aggregate, the rich
runtime and the notifier (all `nil` before provisioning), plus whether
the `runtimeNotify` latch channel has been closed. -/
structure NodeState where
  agg : Option Nat := none
  runtime : Option Nat := none
  notifier : Option Nat := none
  runtimeNotifyClosed : Bool := false
deriving DecidableEq, Repr

/-- `RuntimeHostNode.GetHostedRuntime`: lock-guarded read of the
runtime field. -/
def GetHostedRuntime (n : NodeState) : Option Nat := n.runtime

/-- Outcome of a `WaitHostedRuntime` call. -/
inductive WaitResult where
  | blocked
  | errOut (e : Err)
  | retOut (rt : Option Nat)
deriving DecidableEq, Repr

/-- The context-cancellation error (`ctx.Err()`). -/
def ctxCanceledErr : Err := Err.other "context canceled"

/-- `RuntimeHostNode.WaitHostedRuntime` as a function of the current
node state: `select` over `ctx.Done()` and the `runtimeNotify` latch.
When both are ready Go chooses uniformly at random between the ready
cases; `pick = true` models choosing the `ctx.Done()` case. -/
def WaitHostedRuntime (n : NodeState) (ctxCanceled : Bool) (pick : Bool) : WaitResult :=
  match ctxCanceled, n.runtimeNotifyClosed with
  | false, false => .blocked
  | true, false => .errOut ctxCanceledErr
  | false, true => .retOut (GetHostedRuntime n)
  | true, true =>
    if pick then .errOut ctxCanceledErr else .retOut (GetHostedRuntime n)

/-- A per-version host configuration (`host.Config`); only the message
handler installation is tracked. -/
structure RtCfg where
  MessageHandler : Option Nat := none
deriving DecidableEq, Repr

/-- The collaborators of `ProvisionHostedRuntime`, as oracles:
`runtime.Host` yields the per-version configs and a provisioner,
`provisioner.NewRuntime` provisions one version, `multi.New` builds
the aggregate, and the factory yields the message handler and the
notifier. -/
structure ProvisionEnv where
  host : Except Err (List (Nat × RtCfg) × Nat)
  newRuntime : Nat → RtCfg → Except Err Nat
  multiNew : List (Nat × Nat) → Except Err Nat
  msgHandler : Nat
  newNotifier : Nat → Nat

/-- The per-version provisioning loop of `ProvisionHostedRuntime`:
each config gets the message handler installed and is passed to the
provisioner; the first failure aborts with a wrapped error. -/
def provisionRuntimes (env : ProvisionEnv) :
    List (Nat × RtCfg) → Except Err (List (Nat × Nat))
  | [] => .ok []
  | (v, cfg) :: rest =>
    let rtCfg := { cfg with MessageHandler := some env.msgHandler }
    match env.newRuntime v rtCfg with
    | .error e => .error (Err.wrap "failed to provision runtime version" e)
    | .ok rt =>
      match provisionRuntimes env rest with
      | .error e => .error e
      | .ok rts => .ok ((v, rt) :: rts)

/-- Outcome of a `ProvisionHostedRuntime` call: an early error return
(state unchanged), a successful provision, or a Go panic. -/
inductive ProvisionResult where
  | errored (e : Err) (s : NodeState)
  | provisioned (s : NodeState) (rt : Nat) (notifier : Nat)
  | panicked
deriving DecidableEq, Repr

/-- `RuntimeHostNode.ProvisionHostedRuntime`: query host configs,
provision every version, build the aggregate, install the fields under
the lock and close the `runtimeNotify` latch.  The unconditional
`close` panics if the latch is already closed. -/
def ProvisionHostedRuntime (env : ProvisionEnv) (n : NodeState) : ProvisionResult :=
  match env.host with
  | .error e => .errored (Err.wrap "failed to get runtime host" e) n
  | .ok (cfgs, _provisioner) =>
    match provisionRuntimes env cfgs with
    | .error e => .errored e n
    | .ok rts =>
      match env.multiNew rts with
      | .error e => .errored (Err.wrap "failed to provision aggregate runtime" e) n
      | .ok agg =>
        let notifier := env.newNotifier agg
        let rr := agg
        let installed : NodeState :=
          { n with agg := some agg, runtime := some rr, notifier := some notifier }
        match closeChan n.runtimeNotifyClosed with
        | none => .panicked
        | some _ =>
          .provisioned { installed with runtimeNotifyClosed := true } rr notifier

/-- Whether a `ProvisionHostedRuntime` call with these collaborators
reaches the installation step (all collaborator calls succeed). -/
def reachesInstall (env : ProvisionEnv) : Bool :=
  match env.host with
  | .error _ => false
  | .ok (cfgs, _) =>
    match provisionRuntimes env cfgs with
    | .error _ => false
    | .ok rts =>
      match env.multiNew rts with
      | .error _ => false
      | .ok _ => true

/-- `keymanager.Status`, reduced to the identifier and the policy. -/
structure KmStatus where
  ID : Nat
  Policy : Option Nat
deriving DecidableEq, Repr

/-- A host-runtime lifecycle event (`host.Event`): only the `Started`
and `Updated` fields are inspected. -/
structure HostEvent where
  Started : Option Nat := none
  Updated : Option Nat := none
deriving DecidableEq, Repr

/-- One event consumed by the inner `select` of
`watchKmPolicyUpdates`: a key-manager status update, an epoch
transition, or a host-runtime lifecycle event. -/
inductive KmEvent where
  | status (st : KmStatus)
  | epoch (e : Nat)
  | hostEv (ev : HostEvent)
deriving DecidableEq, Repr

/-- The loop-local state of `watchKmPolicyUpdates`: the last seen
status, SGX constraints and version info. -/
structure KmWatchState where
  st : Option KmStatus := none
  sc : Option SGXConstraints := none
  vi : Option VersionInfo := none
deriving DecidableEq, Repr

/-- The collaborators of `watchKmPolicyUpdates`: the runtime's
feature flag (`rtInfo.Features.KeyManagerQuotePolicyUpdates`), the
registry descriptor query and the CBOR decoding of SGX constraints. -/
structure KmWatchEnv where
  kmQuotePolicyUpdates : Bool
  registryGetRuntime : Nat → Except Err RuntimeDescriptor
  parseSGXConstraints : Nat → Option SGXConstraints

/-- A push issued to the hosted runtime by the policy watch loop:
either a key manager policy update (`updateKeyManagerPolicy`, carrying
`st.Policy`, possibly `nil`) or a quote policy update
(`updateKeyManagerQuotePolicy`, carrying `sc.Policy`). -/
inductive Push where
  | policy (p : Option Nat)
  | quotePolicy (p : Nat)
deriving DecidableEq, Repr

/-- Modelled from the spec: `registry.VersionInfo.Equal` is not under
`src/`; following the spec's design note, deployments are equal only
when all policy-relevant fields match (structural equality), and a
`nil` previous value is unequal to any new value. -/
def viEqual (nv : VersionInfo) (old : Option VersionInfo) : Bool :=
  decide (old = some nv)

/-- One iteration of the inner `select` of
`runtimeHostNotifier.watchKmPolicyUpdates` for the tracked key manager
`kmRtID`: returns the updated loop state and the pushes issued to the
hosted runtime, in order. -/
def watchKmPolicyUpdatesStep (env : KmWatchEnv) (kmRtID : Nat)
    (s : KmWatchState) : KmEvent → KmWatchState × List Push
  | .status newSt =>
    if newSt.ID = kmRtID then
      ({ s with st := some newSt }, [Push.policy newSt.Policy])
    else
      (s, [])
  | .epoch epoch =>
    if env.kmQuotePolicyUpdates then
      match env.registryGetRuntime kmRtID with
      | .error _ => (s, [])
      | .ok dsc =>
        if dsc.TEEHardware = TEEHardwareKind.intelSGX then
          if viEqual (dsc.activeDeployment epoch) s.vi then (s, [])
          else
            match env.parseSGXConstraints (dsc.activeDeployment epoch).TEE with
            | none => ({ s with vi := some (dsc.activeDeployment epoch) }, [])
            | some newSc =>
              ({ s with vi := some (dsc.activeDeployment epoch), sc := some newSc },
               [Push.quotePolicy newSc.Policy])
        else
          (s, [])
    else
      (s, [])
  | .hostEv ev =>
    if ev.Started = none ∧ ev.Updated = none then
      (s, [])
    else
      (s,
        (match s.st with
         | some st => [Push.policy st.Policy]
         | none => []) ++
        (match s.sc with
         | some sc => [Push.quotePolicy sc.Policy]
         | none => []))

/-- One operation on the latest-block ring: a producer write of a
block (identified by its height) or a consumer read. -/
inductive RingOp where
  | write (h : Nat)
  | read
deriving DecidableEq, Repr

/-- The state of the consensus block watch loop: the single-slot cell
and the heights delivered to the hosted runtime so far. -/
structure RingState where
  cell : Option Nat := none
  delivered : List Nat := []
deriving DecidableEq, Repr

/-- Modelled from the spec: the Latest-Block Cell of
`watchConsensusLightBlocks` (an external `RingChannel` of capacity
one) is a single-slot buffer whose writes overwrite without blocking;
a consumer read takes the buffered block, delivers its height to the
hosted runtime via `ConsensusSync`, and empties the cell (a read of an
empty cell waits, i.e. changes nothing). -/
def ringStep (s : RingState) : RingOp → RingState
  | .write h => { s with cell := some h }
  | .read =>
    match s.cell with
    | some h => { cell := none, delivered := s.delivered ++ [h] }
    | none => s

/-- Execution of a sequence of ring operations from the empty cell. -/
def ringExec (ops : List RingOp) : RingState :=
  ops.foldl ringStep {}

/-! ### Concrete collaborators used by counterexamples and witnesses -/

/-- A concrete read-syncer whose three methods succeed. -/
def testReadSyncer : ReadSyncer where
  syncGet := fun _ => .ok { Proof := 11 }
  syncGetPrefixes := fun _ => .ok { Proof := 12 }
  syncIterate := fun _ => .ok { Proof := 13 }

/-- A concrete consensus backend whose operations succeed. -/
def testConsensus : ConsensusBackend where
  state := testReadSyncer
  stakingGetEvents := fun _ => .ok [1, 2]
  registryGetEvents := fun _ => .ok [3]
  rootHashGetEvents := fun _ => .ok [4, 5, 6]
  governanceGetEvents := fun _ => .ok []
  getGenesisDocument := .ok { Height := 42 }
  signAndSubmitTxWithProof := fun _ _ => .ok (7, 8)
  registryGetRuntime := fun _ =>
    .ok { TEEHardware := .intelSGX, activeDeployment := fun _ => { TEE := 99 } }

/-- A concrete handler environment whose getters succeed; the pool
holds ten ordered transactions with raw bytes `0..9`. -/
def testEnv : HandlerEnv where
  getKeyManagerClient := .ok { callEnclave := fun req _ _ => .ok req }
  getTxPool := .ok { txs := (List.range 10).map fun i => { raw := i } }
  getNodeIdentity := .ok { nodeSignerPublic := 5 }
  getLightClient := .ok { getLightBlock := fun h => .ok (h + 1) }

/-- A concrete managed runtime with storage and local storage. -/
def testRuntime : RuntimeIface where
  storage := some testReadSyncer
  localStorage := { get := fun _ => .ok [9], set := fun _ _ => none }

/-- A concrete handler built from the test collaborators. -/
def testHandler : Handler where
  env := testEnv
  runtime := testRuntime
  consensus := testConsensus

/-- A request envelope with two populated request variants
(genesis-height and identity). -/
def twoVariantBody : Body where
  HostFetchGenesisHeightRequest := some {}
  HostIdentityRequest := some {}

/-! ### Dispatcher lemmas -/

/-- The dispatcher handles exactly the first populated request variant
in the fixed order of the `switch`. -/
theorem dispatch_eq_variantResult (h : Handler) (rq : Body) :
    dispatch h rq = variantResult h (firstVariant rq) := by
  unfold dispatch firstVariant
  split <;> rfl

/-- The dispatcher handles exactly the first populated request variant
in the fixed order of the `switch`. -/
theorem Handle_eq_handleVariant (h : Handler) (rq : Body) :
    Handle h rq = handleVariant h (firstVariant rq) := by
  unfold Handle handleVariant
  rw [dispatch_eq_variantResult]

/-- An envelope with no populated request variant has no first
variant. -/
theorem firstVariant_eq_none_of_countReq_zero (rq : Body) (h : countReq rq = 0) :
    firstVariant rq = none := by
  unfold firstVariant
  split <;>
    first
      | rfl
      | (exfalso; simp only [countReq] at h; simp_all)

/-! ### C1 -/

/-- C1 (corrected): for every request envelope, `Handle` dispatches on
the first populated request variant in the fixed order of the
`switch`; in particular a request with zero populated variants gets
the `method not supported` sentinel and no response. -/
theorem C1_dispatch_first_variant (h : Handler) (rq : Body) :
    Handle h rq = handleVariant h (firstVariant rq) ∧
    (countReq rq = 0 → Handle h rq = (none, some Err.methodNotSupported)) := by
  refine ⟨Handle_eq_handleVariant h rq, fun hz => ?_⟩
  rw [Handle_eq_handleVariant, firstVariant_eq_none_of_countReq_zero rq hz]
  rfl

/-- C1 witness: the empty envelope is rejected with the sentinel. -/
theorem C1_dispatch_first_variant_witness :
    Handle testHandler {} = (none, some Err.methodNotSupported) :=
  (C1_dispatch_first_variant testHandler {}).2 rfl

/-- C1 counterexample: an envelope with two populated request variants
(genesis-height and identity) is not rejected with the sentinel; the
dispatcher answers the genesis-height request. -/
theorem C1_counterexample :
    countReq twoVariantBody = 2 ∧
    Handle testHandler twoVariantBody =
      (some { HostFetchGenesisHeightResponse := some { Height := 42 } }, none) :=
  ⟨rfl, rfl⟩

/-! ### C8 -/

/-- A boolean's numeric value is at most one. -/
theorem toNat_le_one (b : Bool) : b.toNat ≤ 1 := by
  cases b <;> simp

/-- If the first populated variant is an RPC request, that field is
populated. -/
theorem firstVariant_rpc (rq : Body) (r : HostRPCCallRequest)
    (h : firstVariant rq = some (.rpc r)) : rq.HostRPCCallRequest = some r := by
  unfold firstVariant at h
  split at h <;> simp_all

/-- If the first populated variant is a storage-sync request, that
field is populated. -/
theorem firstVariant_storageSync (rq : Body) (r : HostStorageSyncRequest)
    (h : firstVariant rq = some (.storageSync r)) : rq.HostStorageSyncRequest = some r := by
  unfold firstVariant at h
  split at h <;> simp_all

/-- If the first populated variant is a local-storage get, that field
is populated. -/
theorem firstVariant_localGet (rq : Body) (r : HostLocalStorageGetRequest)
    (h : firstVariant rq = some (.localGet r)) : rq.HostLocalStorageGetRequest = some r := by
  unfold firstVariant at h
  split at h <;> simp_all

/-- If the first populated variant is a local-storage set, that field
is populated. -/
theorem firstVariant_localSet (rq : Body) (r : HostLocalStorageSetRequest)
    (h : firstVariant rq = some (.localSet r)) : rq.HostLocalStorageSetRequest = some r := by
  unfold firstVariant at h
  split at h <;> simp_all

/-- If the first populated variant is a consensus-block fetch, that
field is populated. -/
theorem firstVariant_consensusBlock (rq : Body) (r : HostFetchConsensusBlockRequest)
    (h : firstVariant rq = some (.consensusBlock r)) :
    rq.HostFetchConsensusBlockRequest = some r := by
  unfold firstVariant at h
  split at h <;> simp_all

/-- If the first populated variant is a consensus-events fetch, that
field is populated. -/
theorem firstVariant_consensusEvents (rq : Body) (r : HostFetchConsensusEventsRequest)
    (h : firstVariant rq = some (.consensusEvents r)) :
    rq.HostFetchConsensusEventsRequest = some r := by
  unfold firstVariant at h
  split at h <;> simp_all

/-- If the first populated variant is a genesis-height fetch, that
field is populated. -/
theorem firstVariant_genesisHeight (rq : Body) (r : HostFetchGenesisHeightRequest)
    (h : firstVariant rq = some (.genesisHeight r)) :
    rq.HostFetchGenesisHeightRequest = some r := by
  unfold firstVariant at h
  split at h <;> simp_all

/-- If the first populated variant is a tx-batch fetch, that field is
populated. -/
theorem firstVariant_txBatch (rq : Body) (r : HostFetchTxBatchRequest)
    (h : firstVariant rq = some (.txBatch r)) : rq.HostFetchTxBatchRequest = some r := by
  unfold firstVariant at h
  split at h <;> simp_all

/-- If the first populated variant is a freshness proof, that field is
populated. -/
theorem firstVariant_proveFreshness (rq : Body) (r : HostProveFreshnessRequest)
    (h : firstVariant rq = some (.proveFreshness r)) :
    rq.HostProveFreshnessRequest = some r := by
  unfold firstVariant at h
  split at h <;> simp_all

/-- If the first populated variant is an identity query, that field is
populated. -/
theorem firstVariant_identity (rq : Body) (r : HostIdentityRequest)
    (h : firstVariant rq = some (.identity r)) : rq.HostIdentityRequest = some r := by
  unfold firstVariant at h
  split at h <;> simp_all

/-- The per-variant dispatch result populates at most one response
variant. -/
theorem countResp_variantResult (h : Handler) (v : Option ReqVariant) :
    countResp (variantResult h v).1 ≤ 1 := by
  rcases v with _ | v
  · simp [variantResult, countResp]
  · rcases v with r | r | r | r | r | r | r | r | r | r <;>
      simp [variantResult, countResp] <;>
      exact toNat_le_one _

/-- The response variant populated by the dispatcher matches the
dispatched (first populated) request variant. -/
theorem respMatches_variantResult (h : Handler) (rq : Body) :
    respMatches rq (variantResult h (firstVariant rq)).1 := by
  rcases hv : firstVariant rq with _ | v
  · simp [variantResult, respMatches]
  · rcases v with r | r | r | r | r | r | r | r | r | r
    · simp [variantResult, respMatches, firstVariant_rpc rq r hv]
    · simp [variantResult, respMatches, firstVariant_storageSync rq r hv]
    · simp [variantResult, respMatches, firstVariant_localGet rq r hv]
    · simp [variantResult, respMatches, firstVariant_localSet rq r hv]
    · simp [variantResult, respMatches, firstVariant_consensusBlock rq r hv]
    · simp [variantResult, respMatches, firstVariant_consensusEvents rq r hv]
    · simp [variantResult, respMatches, firstVariant_genesisHeight rq r hv]
    · simp [variantResult, respMatches, firstVariant_txBatch rq r hv]
    · simp [variantResult, respMatches, firstVariant_proveFreshness rq r hv]
    · simp [variantResult, respMatches, firstVariant_identity rq r hv]

/-- C8 (confirmed): `Handle` never returns both a response and an
error, and every returned response envelope has at most one populated
response variant, the one matching the dispatched request variant. -/
theorem C8_handle_invariant (h : Handler) (rq : Body) :
    (¬((Handle h rq).1.isSome = true ∧ (Handle h rq).2.isSome = true)) ∧
    (∀ rsp, (Handle h rq).1 = some rsp → countResp rsp ≤ 1 ∧ respMatches rq rsp) := by
  constructor
  · unfold Handle
    rcases hd : (dispatch h rq).2 with _ | e <;> simp
  · intro rsp hrsp
    unfold Handle at hrsp
    rcases hd : (dispatch h rq).2 with _ | e <;> rw [hd] at hrsp <;> simp at hrsp
    subst hrsp
    rw [dispatch_eq_variantResult]
    exact ⟨countResp_variantResult h (firstVariant rq), respMatches_variantResult h rq⟩

/-- C8 witness: the genesis-height response of the two-variant
envelope has one populated variant, matching the dispatched one. -/
theorem C8_handle_invariant_witness :
    countResp { HostFetchGenesisHeightResponse := some { Height := 42 } } ≤ 1 ∧
    respMatches twoVariantBody { HostFetchGenesisHeightResponse := some { Height := 42 } } :=
  (C8_handle_invariant testHandler twoVariantBody).2 _ rfl

/-! ### C6 -/

/-- C6 (confirmed): for each of the four consensus-event kinds the
handler returns one event per backend event, in backend order, tagged
with the requested kind only; any other kind value is rejected with
the `method not supported` sentinel. -/
theorem C6_fetch_events_tagged (h : Handler) (ht : Nat) :
    (∀ evs, h.consensus.stakingGetEvents ht = .ok evs →
      handleHostFetchConsensusEvents h { Height := ht, Kind := .staking } =
        (some { Events := evs.map fun ev => { Staking := some ev } }, none)) ∧
    (∀ evs, h.consensus.registryGetEvents ht = .ok evs →
      handleHostFetchConsensusEvents h { Height := ht, Kind := .registry } =
        (some { Events := evs.map fun ev => { Registry := some ev } }, none)) ∧
    (∀ evs, h.consensus.rootHashGetEvents ht = .ok evs →
      handleHostFetchConsensusEvents h { Height := ht, Kind := .rootHash } =
        (some { Events := evs.map fun ev => { RootHash := some ev } }, none)) ∧
    (∀ evs, h.consensus.governanceGetEvents ht = .ok evs →
      handleHostFetchConsensusEvents h { Height := ht, Kind := .governance } =
        (some { Events := evs.map fun ev => { Governance := some ev } }, none)) ∧
    (∀ n, handleHostFetchConsensusEvents h { Height := ht, Kind := .otherKind n } =
      (none, some Err.methodNotSupported)) := by
  refine ⟨?_, ?_, ?_, ?_, fun n => rfl⟩ <;>
    intro evs hev <;>
    simp [handleHostFetchConsensusEvents, hev]

/-- C6 witness: the test staking backend yields events `[1, 2]`, and
the handler returns them in order, each tagged as staking. -/
theorem C6_fetch_events_tagged_witness :
    handleHostFetchConsensusEvents testHandler { Height := 7, Kind := .staking } =
      (some { Events := [1, 2].map fun ev => { Staking := some ev } }, none) :=
  (C6_fetch_events_tagged testHandler 7).1 [1, 2] rfl

/-! ### C9 -/

/-- C9 (confirmed): the fetch-transaction-batch handler returns
exactly the raw bytes of the pool's window at the requested offset and
limit, in pool order; for a pool of ten ordered transactions, offset 5
and limit 3 yield positions 5, 6 and 7. -/
theorem C9_fetch_tx_batch (h : Handler) (pool : TxPool) (o l : Nat)
    (hp : h.env.getTxPool = .ok pool) :
    handleHostFetchTxBatch h { Offset := o, Limit := l } =
      (some { Batch := (pool.GetSchedulingExtra o l).map TxQueueMeta.Raw }, none) ∧
    ((List.range 10).map (fun i => ({ raw := i } : TxQueueMeta)) = pool.txs →
      (pool.GetSchedulingExtra 5 3).map TxQueueMeta.Raw = [5, 6, 7]) := by
  constructor
  · simp [handleHostFetchTxBatch, hp]
  · intro h10
    unfold TxPool.GetSchedulingExtra
    rw [← h10]
    rfl

/-- C9 witness: against the test pool of ten ordered transactions,
`fetchTxBatch{offset=5, limit=3}` returns the raw bytes of positions
5, 6 and 7. -/
theorem C9_fetch_tx_batch_witness :
    handleHostFetchTxBatch testHandler { Offset := 5, Limit := 3 } =
      (some { Batch := [5, 6, 7] }, none) := by
  have h := C9_fetch_tx_batch testHandler
    { txs := (List.range 10).map fun i => { raw := i } } 5 3 rfl
  rw [h.1, h.2 rfl]

/-! ### C2 -/

/-- C2 counterexample: the first `Stop` on a started notifier
succeeds, and a second `Stop` closes the already-closed stop channel
and panics. -/
theorem C2_counterexample :
    notifierStop { started := true, stopChClosed := false, policyLoops := 1, blockLoops := 1 } =
      some { started := true, stopChClosed := true, policyLoops := 1, blockLoops := 1 } ∧
    notifierStop { started := true, stopChClosed := true, policyLoops := 1, blockLoops := 1 } =
      none :=
  ⟨rfl, rfl⟩

/-- C2 (amended): `Start` is idempotent — a second `Start` after a
successful first call is a no-op and the watch loops are not launched
again; a first `Stop` closes the stop channel safely, but a second
`Stop` closes an already-closed channel and panics. -/
theorem C2_amended_lifecycle (n : NotifierState) :
    (n.started = true → notifierStart n = (n, none)) ∧
    (notifierStart (notifierStart n).1).1 = (notifierStart n).1 ∧
    (n.stopChClosed = false →
      notifierStop n = some { n with stopChClosed := true }) ∧
    (n.stopChClosed = true → notifierStop n = none) := by
  refine ⟨fun hs => ?_, ?_, fun hc => ?_, fun hc => ?_⟩
  · simp [notifierStart, hs]
  · rcases hs : n.started <;> simp [notifierStart, hs]
  · simp [notifierStop, closeChan, hc]
  · simp [notifierStop, closeChan, hc]

/-- C2 witness: concrete second-start no-op, safe first stop, and
panicking second stop. -/
theorem C2_amended_lifecycle_witness :
    notifierStart { started := true } = ({ started := true }, none) ∧
    notifierStop ({} : NotifierState) = some { stopChClosed := true } ∧
    notifierStop { stopChClosed := true } = none :=
  ⟨(C2_amended_lifecycle { started := true }).1 rfl,
   (C2_amended_lifecycle ({} : NotifierState)).2.2.1 rfl,
   (C2_amended_lifecycle { stopChClosed := true }).2.2.2 rfl⟩

/-! ### C3 and C10 -/

/-- A concrete provisioning environment whose collaborators succeed:
one runtime version, aggregate id `44`, notifier id `45`. -/
def testProvisionEnv : ProvisionEnv where
  host := .ok ([(1, {})], 0)
  newRuntime := fun _ _ => .ok 33
  multiNew := fun _ => .ok 44
  msgHandler := 2
  newNotifier := fun agg => agg + 1

/-- After a successful provision the latch is closed and the runtime
field holds the provisioned runtime. -/
theorem provisioned_state (env : ProvisionEnv) (n s : NodeState) (rt nt : Nat)
    (hp : ProvisionHostedRuntime env n = .provisioned s rt nt) :
    s.runtimeNotifyClosed = true ∧ s.runtime = some rt := by
  unfold ProvisionHostedRuntime at hp
  repeat' split at hp
  all_goals injections
  all_goals subst_vars
  all_goals simp

/-- C3 counterexample: with provisioning already complete and an
already-canceled context, the `select` may take the latch branch and
return the provisioned runtime instead of the cancellation error. -/
theorem C3_counterexample :
    WaitHostedRuntime
        { agg := some 5, runtime := some 7, notifier := some 9, runtimeNotifyClosed := true }
        true false = .retOut (some 7) ∧
    WaitHostedRuntime
        { agg := some 5, runtime := some 7, notifier := some 9, runtimeNotifyClosed := true }
        true false ≠ .errOut ctxCanceledErr :=
  ⟨rfl, by decide⟩

/-- C3 (amended): before provisioning completes and without
cancellation the wait blocks; once `ProvisionHostedRuntime` completes
it returns the provisioned runtime; an already-canceled context with
provisioning incomplete yields the cancellation error immediately and
no runtime; when both the cancellation and the latch are ready the
`select` picks nondeterministically between the two outcomes. -/
theorem C3_amended_wait (env : ProvisionEnv) (n s : NodeState) (rt nt : Nat) (pick : Bool) :
    (n.runtimeNotifyClosed = false → WaitHostedRuntime n false pick = .blocked) ∧
    (n.runtimeNotifyClosed = false →
      WaitHostedRuntime n true pick = .errOut ctxCanceledErr) ∧
    (ProvisionHostedRuntime env n = .provisioned s rt nt →
      WaitHostedRuntime s false pick = .retOut (some rt)) ∧
    (n.runtimeNotifyClosed = true →
      WaitHostedRuntime n true pick =
        if pick then .errOut ctxCanceledErr else .retOut (GetHostedRuntime n)) := by
  refine ⟨fun hc => ?_, fun hc => ?_, fun hp => ?_, fun hc => ?_⟩
  · simp [WaitHostedRuntime, hc]
  · simp [WaitHostedRuntime, hc]
  · obtain ⟨h1, h2⟩ := provisioned_state env n s rt nt hp
    simp [WaitHostedRuntime, GetHostedRuntime, h1, h2]
  · simp [WaitHostedRuntime, hc]

/-- C3 witness: concrete blocked wait, immediate cancellation error,
and post-provisioning return of the provisioned runtime. -/
theorem C3_amended_wait_witness :
    WaitHostedRuntime ({} : NodeState) false false = .blocked ∧
    WaitHostedRuntime ({} : NodeState) true false = .errOut ctxCanceledErr ∧
    WaitHostedRuntime
        { agg := some 44, runtime := some 44, notifier := some 45, runtimeNotifyClosed := true }
        false false = .retOut (some 44) := by
  have h := C3_amended_wait testProvisionEnv ({} : NodeState)
      { agg := some 44, runtime := some 44, notifier := some 45, runtimeNotifyClosed := true }
      44 45 false
  exact ⟨h.1 rfl, h.2.1 rfl, h.2.2.1 rfl⟩

/-- C10 (confirmed): a second `ProvisionHostedRuntime` call on the
same node that again reaches the installation step closes the
already-closed provisioning latch and panics. -/
theorem C10_double_provision_panics (env env2 : ProvisionEnv) (n s : NodeState) (rt nt : Nat)
    (h1 : ProvisionHostedRuntime env n = .provisioned s rt nt)
    (h2 : reachesInstall env2 = true) :
    ProvisionHostedRuntime env2 s = .panicked := by
  have hclosed : s.runtimeNotifyClosed = true := (provisioned_state env n s rt nt h1).1
  rcases hh : env2.host with e | p
  · simp [reachesInstall, hh] at h2
  · obtain ⟨cfgs, prov⟩ := p
    rcases hpr : provisionRuntimes env2 cfgs with e | rts
    · simp [reachesInstall, hh, hpr] at h2
    · rcases hm : env2.multiNew rts with e | agg
      · simp [reachesInstall, hh, hpr, hm] at h2
      · simp [ProvisionHostedRuntime, hh, hpr, hm, closeChan, hclosed]

/-- C10 witness: a concrete second provision on the provisioned state
panics. -/
theorem C10_double_provision_panics_witness :
    ProvisionHostedRuntime testProvisionEnv
      { agg := some 44, runtime := some 44, notifier := some 45, runtimeNotifyClosed := true } =
      .panicked :=
  C10_double_provision_panics testProvisionEnv testProvisionEnv ({} : NodeState)
    { agg := some 44, runtime := some 44, notifier := some 45, runtimeNotifyClosed := true }
    44 45 rfl rfl

/-! ### C4 and C5 -/

/-- A concrete policy-watch environment whose collaborators succeed:
quote-policy updates enabled, SGX descriptor whose active deployment
carries the epoch as its constraint bytes, and a parser that wraps the
bytes into a quote policy. -/
def testKmEnv : KmWatchEnv where
  kmQuotePolicyUpdates := true
  registryGetRuntime := fun _ =>
    .ok { TEEHardware := .intelSGX, activeDeployment := fun e => { TEE := e } }
  parseSGXConstraints := fun n => some { Policy := n }

/-- A policy-watch environment whose SGX-constraint bytes are
malformed (the CBOR decoding fails). -/
def cexKmEnv : KmWatchEnv where
  kmQuotePolicyUpdates := true
  registryGetRuntime := fun _ =>
    .ok { TEEHardware := .intelSGX, activeDeployment := fun _ => { TEE := 5 } }
  parseSGXConstraints := fun _ => none

/-- C4 (confirmed): a host-runtime lifecycle event with `Started` or
`Updated` populated leaves the loop state unchanged and replays the
previously observed policy and quote policy (each exactly when it was
observed), with no new status or epoch event required; an event with
both fields nil triggers no push. -/
theorem C4_host_event_replay (env : KmWatchEnv) (kmRtID : Nat)
    (s : KmWatchState) (ev : HostEvent) :
    (ev.Started = none ∧ ev.Updated = none →
      watchKmPolicyUpdatesStep env kmRtID s (.hostEv ev) = (s, [])) ∧
    (¬(ev.Started = none ∧ ev.Updated = none) →
      watchKmPolicyUpdatesStep env kmRtID s (.hostEv ev) =
        (s,
          (match s.st with
           | some st => [Push.policy st.Policy]
           | none => []) ++
          (match s.sc with
           | some sc => [Push.quotePolicy sc.Policy]
           | none => []))) := by
  constructor
  · intro hnil
    simp [watchKmPolicyUpdatesStep, hnil.1, hnil.2]
  · intro hsome
    simp only [watchKmPolicyUpdatesStep]
    rw [if_neg hsome]

/-- C4 witness: a restart event replays both known policies. -/
theorem C4_host_event_replay_witness :
    watchKmPolicyUpdatesStep testKmEnv 1
        { st := some { ID := 1, Policy := some 10 }, sc := some { Policy := 20 }, vi := none }
        (.hostEv { Started := some 0 }) =
      ({ st := some { ID := 1, Policy := some 10 }, sc := some { Policy := 20 }, vi := none },
       [Push.policy (some 10), Push.quotePolicy 20]) := by
  have h := (C4_host_event_replay testKmEnv 1
      { st := some { ID := 1, Policy := some 10 }, sc := some { Policy := 20 }, vi := none }
      { Started := some 0 }).2 (by simp)
  exact h.trans rfl

/-- C5 counterexample: with the feature flag set, an SGX descriptor
and a changed active deployment, a malformed constraint payload means
no quote-policy push is issued, refuting the claimed "if and only
if". -/
theorem C5_counterexample :
    cexKmEnv.kmQuotePolicyUpdates = true ∧
    (cexKmEnv.registryGetRuntime 1).toOption.map RuntimeDescriptor.TEEHardware =
      some TEEHardwareKind.intelSGX ∧
    (cexKmEnv.registryGetRuntime 1).toOption.map
        (fun dsc => viEqual (dsc.activeDeployment 0) none) = some false ∧
    watchKmPolicyUpdatesStep cexKmEnv 1 {} (.epoch 0) =
      ({ vi := some { TEE := 5 } }, []) :=
  ⟨rfl, rfl, rfl, rfl⟩

/-- C5 (amended): on an epoch transition a quote-policy push occurs
iff the feature flag is set, the descriptor re-query succeeds with
Intel SGX TEE hardware, the active deployment for that epoch differs
from the last observed one, and the new deployment's SGX constraints
parse successfully; the pushed policy is the parsed one. -/
theorem C5_amended_quote_policy (env : KmWatchEnv) (kmRtID : Nat)
    (s : KmWatchState) (e : Nat) :
    (watchKmPolicyUpdatesStep env kmRtID s (.epoch e)).2 ≠ [] ↔
      (env.kmQuotePolicyUpdates = true ∧
       ∃ dsc sc, env.registryGetRuntime kmRtID = .ok dsc ∧
         dsc.TEEHardware = .intelSGX ∧
         viEqual (dsc.activeDeployment e) s.vi = false ∧
         env.parseSGXConstraints (dsc.activeDeployment e).TEE = some sc ∧
         (watchKmPolicyUpdatesStep env kmRtID s (.epoch e)).2 =
           [Push.quotePolicy sc.Policy]) := by
  simp only [watchKmPolicyUpdatesStep]
  rcases hb : env.kmQuotePolicyUpdates
  · simp [hb]
  · rcases hg : env.registryGetRuntime kmRtID with e0 | dsc
    · simp [hg]
    · simp only [hg, if_true]
      by_cases hsgx : dsc.TEEHardware = TEEHardwareKind.intelSGX
      · rcases hv : viEqual (dsc.activeDeployment e) s.vi
        · rcases hparse : env.parseSGXConstraints (dsc.activeDeployment e).TEE with _ | sc
          · simp [hsgx, hv, hparse]
          · simp [hsgx, hv, hparse]
        · simp [hsgx, hv]
      · simp [hsgx]

/-- C5 witness: in the successful test environment, a first epoch
transition issues a quote-policy push. -/
theorem C5_amended_quote_policy_witness :
    (watchKmPolicyUpdatesStep testKmEnv 1 {} (.epoch 3)).2 ≠ [] :=
  (C5_amended_quote_policy testKmEnv 1 {} 3).mpr
    ⟨rfl, { TEEHardware := .intelSGX, activeDeployment := fun e => { TEE := e } },
     { Policy := 3 }, rfl, rfl, rfl, rfl, rfl⟩

/-! ### C7 -/

/-- C7 (confirmed): the single-slot cell never blocks the producer
(every write completes by overwriting), and when blocks 100, 101 and
102 are all produced before the slow consumer performs its read,
exactly block 102 is delivered and blocks 100 and 101 never are. -/
theorem C7_latest_block_only :
    (∀ (s : RingState) (hgt : Nat), ringStep s (.write hgt) = { s with cell := some hgt }) ∧
    ringExec [.write 100, .write 101, .write 102, .read] =
      { cell := none, delivered := [102] } ∧
    100 ∉ (ringExec [.write 100, .write 101, .write 102, .read]).delivered ∧
    101 ∉ (ringExec [.write 100, .write 101, .write 102, .read]).delivered := by
  refine ⟨fun s hgt => rfl, rfl, ?_, ?_⟩ <;> decide

end Oasis
